import Mathlib

/-!
Shallow embedding of the i18n bundle module (packages/base/src/i18nBundle.ts)
and of the tree item interaction logic (packages/main/src/TreeItemBase.ts),
with proofs about the behaviour of getText, the bundle registry, and the
tree item event handlers.
-/

namespace UI5

/-- Positional parameter passed to the message formatter: a number or a string. -/
inductive FormatParam where
  | num (n : Int)
  | str (s : String)
deriving DecidableEq

/-- Argument of getText: either a bare string key or a key/defaultText pair.
A call with no argument at all is modelled by an Option around this type. -/
inductive TextObj where
  | str (s : String)
  | obj (key defaultText : String)
deriving DecidableEq

/-- Locale data for one package: a key to translated-string mapping, as
delivered by the external asset registry. -/
abbrev LocaleData := List (String × String)

/-- An I18nBundle instance holds the package name; the ref field stands for
the object identity of the constructed instance, so that reference equality
can be stated in the model. -/
structure I18nBundle where
  ref : Nat
  packageName : String
deriving DecidableEq

/-- Truthiness of a possibly absent string value, as JavaScript evaluates
bundle[textObj.key]: an absent value and the empty string are falsy. -/
def isTruthy : Option String → Bool
  | none => false
  | some s => decide (s ≠ "")

/-- Warning text printed on a missing key by getText. -/
def missingKeyWarning (key : String) : String :=
  "Key " ++ key ++ " not found in the i18n bundle, the default text will be used"

/-- Result of getText: the returned string together with the console warnings
emitted while computing it. -/
structure GetTextResult where
  text : String
  warnings : List String
deriving DecidableEq

/-- getText of I18nBundle.  The store argument plays the role of
getI18nBundleData: the loaded locale data per package name, or none when the
data for the package is not loaded.  The fmt argument is the external
formatMessage collaborator, kept abstract. -/
def getText (fmt : String → List FormatParam → String)
    (store : String → Option LocaleData) (b : I18nBundle)
    (textObj : Option TextObj) (params : List FormatParam) : GetTextResult :=
  let kd : Option (String × String) :=
    match textObj with
    | some (TextObj.str s) => some (s, s)
    | some (TextObj.obj k d) => some (k, d)
    | none => none
  match kd with
  | none => { text := "", warnings := [] }
  | some (k, d) =>
    if k = "" then { text := "", warnings := [] }
    else
      let bundle := store b.packageName
      let v := bundle.bind (fun data => data.lookup k)
      let warnings :=
        if bundle.isSome && !(isTruthy v) then [missingKeyWarning k] else []
      let messageText :=
        if bundle.isSome && isTruthy v then v.getD ""
        else (if d = "" then k else d)
      { text := fmt messageText params, warnings := warnings }

/-- Modelled from the spec: the resolution order of the message text in the
words of the specification, with presence of the key read as a truthy
(non-empty) stored value — the translated string when present and non-empty,
else defaultText, else the key itself.  Compared against getText below. -/
def resolveMessage (bundle : Option LocaleData) (key defaultText : String) : String :=
  match bundle with
  | some data =>
    match data.lookup key with
    | some t =>
      if t = "" then (if defaultText = "" then key else defaultText) else t
    | none => if defaultText = "" then key else defaultText
  | none => if defaultText = "" then key else defaultText

/-- State of the module level registry in i18nBundle.ts: the
I18nBundleInstances map together with a counter supplying the identity of the
next constructed instance. -/
structure RegistryState where
  instances : List (String × I18nBundle)
  nextRef : Nat
deriving DecidableEq

/-- getI18nBundleSync: return the cached instance for packageName when
present, otherwise construct a new I18nBundle, insert it into the registry
and return it. -/
def getI18nBundleSync (s : RegistryState) (packageName : String) :
    I18nBundle × RegistryState :=
  match s.instances.lookup packageName with
  | some b => (b, s)
  | none =>
    let i18nBundle : I18nBundle := { ref := s.nextRef, packageName := packageName }
    (i18nBundle,
      { instances := (packageName, i18nBundle) :: s.instances,
        nextRef := s.nextRef + 1 })

/-- Actions observable while getI18nBundle runs: the external fetchI18nBundle
call, the synchronous cache path, or an invocation of the registered custom
getter. -/
inductive BundleAction where
  | fetch (packageName : String)
  | syncPath (packageName : String)
  | customCall (packageName : String)
deriving DecidableEq

/-- Module level state of i18nBundle.ts: the instance registry and the
customGetI18nBundle slot.  A registered custom getter is modelled as a pure
function from package name to bundle. -/
structure I18nModuleState where
  registry : RegistryState
  customGetI18nBundle : Option (String → I18nBundle)

/-- getI18nBundle: when a custom getter is registered it is used exclusively;
otherwise fetchI18nBundle runs and the synchronous cache path returns the
instance.  The returned action list records which path executed. -/
def getI18nBundle (s : I18nModuleState) (packageName : String) :
    I18nBundle × I18nModuleState × List BundleAction :=
  match s.customGetI18nBundle with
  | some g => (g packageName, s, [BundleAction.customCall packageName])
  | none =>
    let r := getI18nBundleSync s.registry packageName
    (r.1, { s with registry := r.2 },
      [BundleAction.fetch packageName, BundleAction.syncPath packageName])

/-- registerCustomI18nBundleGetter stores the getter in the single module
level slot, overwriting any previously registered getter. -/
def registerCustomI18nBundleGetter (customGet : String → I18nBundle)
    (s : I18nModuleState) : I18nModuleState :=
  { s with customGetI18nBundle := some customGet }

/-- Key input relevant to the tree item keydown handler, abstracting the
external isLeft and isRight predicates of Keys.js. -/
inductive Key where
  | arrowLeft
  | arrowRight
  | other
deriving DecidableEq

/-- isLeft of Keys.js restricted to the three key classes of the model. -/
def isLeft : Key → Bool
  | Key.arrowLeft => true
  | _ => false

/-- isRight of Keys.js restricted to the three key classes of the model. -/
def isRight : Key → Bool
  | Key.arrowRight => true
  | _ => false

/-- Observable state of a TreeItemBase element: its declared properties, the
inherited actionable and selected properties of ListItem, and the slotted
child items (only their number matters for the embedded logic). -/
structure TreeItemBase where
  level : Int
  icon : String
  showToggleButton : Bool
  expanded : Bool
  indeterminate : Bool
  hasChildren : Bool
  accessibleName : String
  _toggleButtonEnd : Bool
  _minimal : Bool
  _fixed : Bool
  items : List Unit
  actionable : Bool
  selected : Bool
deriving DecidableEq

/-- Events fired by TreeItemBase, each carrying the item reference. -/
inductive TreeEvt where
  | toggle (item : TreeItemBase)
  | stepIn (item : TreeItemBase)
  | stepOut (item : TreeItemBase)
deriving DecidableEq

/-- Getter requiresToggleButton. -/
def requiresToggleButton (t : TreeItemBase) : Bool :=
  if !t._fixed then (t.hasChildren || decide (0 < t.items.length)) else false

/-- Getter hasParent. -/
def hasParent (t : TreeItemBase) : Bool :=
  decide (1 < t.level)

/-- Getter effectiveLevel. -/
def effectiveLevel (t : TreeItemBase) : Int :=
  t.level - 1

/-- Getter _toggleIconName. -/
def _toggleIconName (t : TreeItemBase) : String :=
  if t.expanded then "navigation-down-arrow" else "navigation-right-arrow"

/-- Getter _showToggleButtonBeginning. -/
def _showToggleButtonBeginning (t : TreeItemBase) : Bool :=
  t.showToggleButton && !t._minimal && !t._toggleButtonEnd

/-- Getter _showToggleButtonEnd. -/
def _showToggleButtonEnd (t : TreeItemBase) : Bool :=
  t.showToggleButton && !t._minimal && t._toggleButtonEnd

/-- Lifecycle hook onBeforeRendering: clears actionable and overwrites
showToggleButton with the derived requiresToggleButton value. -/
def onBeforeRendering (t : TreeItemBase) : TreeItemBase :=
  { t with actionable := false, showToggleButton := requiresToggleButton t }

/-- Public method toggle: flips the expanded property. -/
def toggle (t : TreeItemBase) : TreeItemBase :=
  { t with expanded := !t.expanded }

/-- Result of an event handler: the item state after the handler, whether
stopPropagation was called on the triggering event, and the fired events. -/
structure HandlerResult where
  item : TreeItemBase
  propagationStopped : Bool
  events : List TreeEvt
deriving DecidableEq

/-- Pointer handler _toggleClick: stops propagation and fires toggle with the
item reference; it performs no property assignment. -/
def _toggleClick (t : TreeItemBase) : HandlerResult :=
  { item := t, propagationStopped := true, events := [TreeEvt.toggle t] }

/-- Tree specific part of the keydown handler _onkeydown: which of the
toggle, step-in and step-out events fire.  The inherited ListItem handler
runs first and is external; it fires none of these three events.  The
handler performs no property assignment, so the item is returned unchanged
together with the fired events. -/
def _onkeydown (t : TreeItemBase) (k : Key) : TreeItemBase × List TreeEvt :=
  let rightEvents :=
    if !t._fixed && t.showToggleButton && isRight k then
      (if !t.expanded then [TreeEvt.toggle t] else [TreeEvt.stepIn t])
    else []
  let leftEvents :=
    if !t._fixed && isLeft k then
      (if t.expanded then [TreeEvt.toggle t]
       else if hasParent t then [TreeEvt.stepOut t] else [])
    else []
  (t, rightEvents ++ leftEvents)

/-- Sample tree item used to instantiate the theorems at concrete inputs. -/
def sampleItem : TreeItemBase :=
  { level := 2, icon := "", showToggleButton := true, expanded := false,
    indeterminate := false, hasChildren := true, accessibleName := "",
    _toggleButtonEnd := false, _minimal := false, _fixed := false,
    items := [()], actionable := true, selected := false }

/-- C5: on a right-arrow keydown with _fixed = false and showToggleButton =
true, a collapsed item fires exactly one toggle event carrying the item
reference and no step-in, leaving every property (expanded included)
unchanged, while an expanded item fires exactly one step-in event and no
toggle; with _fixed = true or showToggleButton = false, a right-arrow fires
no event at all. -/
theorem onkeydown_right_arrow_spec (t : TreeItemBase) :
    (t._fixed = false → t.showToggleButton = true →
      ((t.expanded = false →
          _onkeydown t Key.arrowRight = (t, [TreeEvt.toggle t]))
        ∧ (t.expanded = true →
          _onkeydown t Key.arrowRight = (t, [TreeEvt.stepIn t]))))
    ∧ (t._fixed = true ∨ t.showToggleButton = false →
        (_onkeydown t Key.arrowRight).2 = []) := by
  refine ⟨fun hf hs => ⟨fun he => ?_, fun he => ?_⟩, fun h => ?_⟩
  · simp [_onkeydown, isRight, isLeft, hf, hs, he]
  · simp [_onkeydown, isRight, isLeft, hf, hs, he]
  · rcases h with h | h <;> simp [_onkeydown, isRight, isLeft, h]

/-- C5 witness: the right-arrow theorem applied at a concrete collapsed
toggleable item, and at the same item expanded. -/
theorem onkeydown_right_arrow_spec_witness :
    _onkeydown sampleItem Key.arrowRight = (sampleItem, [TreeEvt.toggle sampleItem])
    ∧ _onkeydown { sampleItem with expanded := true } Key.arrowRight
      = ({ sampleItem with expanded := true },
         [TreeEvt.stepIn { sampleItem with expanded := true }]) :=
  ⟨((onkeydown_right_arrow_spec sampleItem).1 rfl rfl).1 rfl,
   ((onkeydown_right_arrow_spec { sampleItem with expanded := true }).1 rfl rfl).2 rfl⟩

/-- C6: on a left-arrow keydown with _fixed = false, an expanded item fires
exactly one toggle event and no step-out; a collapsed item with level above
one fires exactly one step-out event and no toggle; a collapsed item at
level one fires neither; and with _fixed = true no toggle, step-in or
step-out event fires for any key. -/
theorem onkeydown_left_arrow_spec (t : TreeItemBase) :
    (t._fixed = false →
      ((t.expanded = true →
          _onkeydown t Key.arrowLeft = (t, [TreeEvt.toggle t]))
        ∧ (t.expanded = false → 1 < t.level →
          _onkeydown t Key.arrowLeft = (t, [TreeEvt.stepOut t]))
        ∧ (t.expanded = false → t.level = 1 →
          (_onkeydown t Key.arrowLeft).2 = [])))
    ∧ (t._fixed = true → ∀ k : Key, (_onkeydown t k).2 = []) := by
  refine ⟨fun hf => ⟨fun he => ?_, fun he hl => ?_, fun he hl => ?_⟩, fun hf k => ?_⟩
  · simp [_onkeydown, isRight, isLeft, hf, he]
  · simp [_onkeydown, isRight, isLeft, hasParent, hf, he, hl]
  · simp [_onkeydown, isRight, isLeft, hasParent, hf, he, hl]
  · simp [_onkeydown, hf]

/-- C6 witness: the left-arrow theorem applied at a concrete collapsed item
of level two, and the fixed-item clause at the same item fixed. -/
theorem onkeydown_left_arrow_spec_witness :
    _onkeydown sampleItem Key.arrowLeft = (sampleItem, [TreeEvt.stepOut sampleItem])
    ∧ (_onkeydown { sampleItem with _fixed := true } Key.arrowLeft).2 = [] :=
  ⟨(((onkeydown_left_arrow_spec sampleItem).1 rfl).2.1 rfl (by decide)),
   (onkeydown_left_arrow_spec { sampleItem with _fixed := true }).2 rfl Key.arrowLeft⟩

/-- C7: _toggleClick stops propagation of the triggering event, fires exactly
one toggle event carrying the item reference and leaves the item (expanded
and all other properties) unchanged; a direct call to toggle flips expanded
unconditionally and changes no other property. -/
theorem toggleClick_and_toggle_spec (t : TreeItemBase) :
    _toggleClick t
      = { item := t, propagationStopped := true, events := [TreeEvt.toggle t] }
    ∧ (_toggleClick t).item = t
    ∧ (_toggleClick t).item.expanded = t.expanded
    ∧ (toggle t).expanded = !t.expanded
    ∧ (toggle t).level = t.level
    ∧ (toggle t).showToggleButton = t.showToggleButton
    ∧ (toggle t).hasChildren = t.hasChildren
    ∧ (toggle t)._fixed = t._fixed
    ∧ (toggle t)._minimal = t._minimal
    ∧ (toggle t)._toggleButtonEnd = t._toggleButtonEnd
    ∧ (toggle t).items = t.items
    ∧ (toggle t).selected = t.selected
    ∧ (toggle t).actionable = t.actionable :=
  ⟨rfl, rfl, rfl, rfl, rfl, rfl, rfl, rfl, rfl, rfl, rfl, rfl, rfl⟩

/-- C8 counterexample: an expanded item has toggle icon navigation-down-arrow
and a collapsed one navigation-right-arrow — not the collapse-icon and
expand-icon names the claim states. -/
theorem toggleIconName_counterexample :
    _toggleIconName { sampleItem with expanded := true } = "navigation-down-arrow"
    ∧ _toggleIconName sampleItem = "navigation-right-arrow"
    ∧ ("navigation-down-arrow" : String) ≠ "collapse-icon"
    ∧ ("navigation-right-arrow" : String) ≠ "expand-icon" :=
  ⟨rfl, rfl, by decide, by decide⟩

/-- C8 amended: _toggleIconName is navigation-down-arrow when expanded and
navigation-right-arrow when collapsed; the toggle button is shown at the
beginning iff showToggleButton and not _minimal and not _toggleButtonEnd, at
the end iff showToggleButton and not _minimal and _toggleButtonEnd, and at
neither position when _minimal is true. -/
theorem toggleIconName_and_placement_spec (t : TreeItemBase) :
    _toggleIconName t
      = (if t.expanded then "navigation-down-arrow" else "navigation-right-arrow")
    ∧ (_showToggleButtonBeginning t = true ↔
        t.showToggleButton = true ∧ t._minimal = false ∧ t._toggleButtonEnd = false)
    ∧ (_showToggleButtonEnd t = true ↔
        t.showToggleButton = true ∧ t._minimal = false ∧ t._toggleButtonEnd = true)
    ∧ (t._minimal = true →
        _showToggleButtonBeginning t = false ∧ _showToggleButtonEnd t = false) := by
  refine ⟨rfl, ?_, ?_, fun hm => ?_⟩
  · simp [_showToggleButtonBeginning, Bool.and_eq_true, Bool.not_eq_true', and_assoc]
  · simp [_showToggleButtonEnd, Bool.and_eq_true, Bool.not_eq_true', and_assoc]
  · simp [_showToggleButtonBeginning, _showToggleButtonEnd, hm]

/-- C8 amended witness: the placement theorem applied at a concrete minimal
item. -/
theorem toggleIconName_and_placement_spec_witness :
    _showToggleButtonBeginning { sampleItem with _minimal := true } = false
    ∧ _showToggleButtonEnd { sampleItem with _minimal := true } = false :=
  (toggleIconName_and_placement_spec { sampleItem with _minimal := true }).2.2.2 rfl

/-- C10: onBeforeRendering always sets actionable to false and overwrites
showToggleButton with the derived requiresToggleButton value, which equals
not _fixed and (hasChildren or a nonzero item count); the previously
assigned showToggleButton value has no influence on the result; every other
property is unchanged. -/
theorem onBeforeRendering_spec (t : TreeItemBase) :
    (onBeforeRendering t).actionable = false
    ∧ (onBeforeRendering t).showToggleButton = requiresToggleButton t
    ∧ requiresToggleButton t
      = (!t._fixed && (t.hasChildren || decide (0 < t.items.length)))
    ∧ (∀ b : Bool, onBeforeRendering { t with showToggleButton := b }
        = onBeforeRendering t)
    ∧ (onBeforeRendering t).level = t.level
    ∧ (onBeforeRendering t).expanded = t.expanded
    ∧ (onBeforeRendering t)._fixed = t._fixed
    ∧ (onBeforeRendering t).hasChildren = t.hasChildren
    ∧ (onBeforeRendering t).items = t.items := by
  obtain ⟨lv, ic, st, ex, ind, hc, an, te, mi, fi, it, ac, se⟩ := t
  refine ⟨rfl, rfl, ?_, fun b => rfl, rfl, rfl, rfl, rfl, rfl⟩
  cases fi <;> simp [requiresToggleButton]

/-- C1 counterexample: with loaded locale data mapping key K to the empty
string, the key is present in the data, yet getText does not return the
formatted translated string (the identity formatter applied to the empty
string) but the formatted defaultText. -/
theorem getText_present_key_counterexample :
    (List.lookup "K" ([("K", "")] : LocaleData)).isSome = true
    ∧ (getText (fun s _ => s) (fun _ => some [("K", "")])
        { ref := 0, packageName := "p" }
        (some (TextObj.obj "K" "D")) []).text = "D"
    ∧ ("D" : String) ≠ "" :=
  ⟨rfl, rfl, by decide⟩

/-- C1 amended: getText normalizes a bare string key to a key/defaultText
pair with both components equal to the key; with no argument or an empty
key it returns the empty string and never an error; otherwise it returns
exactly the formatter applied to the resolved message and the parameters,
where the resolved message is the translated string when present with a
non-empty value, else defaultText, else the key itself. -/
theorem getText_spec (fmt : String → List FormatParam → String)
    (store : String → Option LocaleData) (b : I18nBundle)
    (k d : String) (params : List FormatParam) :
    getText fmt store b (some (TextObj.str k)) params
      = getText fmt store b (some (TextObj.obj k k)) params
    ∧ getText fmt store b none params = { text := "", warnings := [] }
    ∧ (k = "" → getText fmt store b (some (TextObj.obj k d)) params
        = { text := "", warnings := [] })
    ∧ (k ≠ "" → (getText fmt store b (some (TextObj.obj k d)) params).text
        = fmt (resolveMessage (store b.packageName) k d) params) := by
  refine ⟨rfl, rfl, fun hk => ?_, fun hk => ?_⟩
  · subst hk; rfl
  · cases hs : store b.packageName with
    | none => simp [getText, resolveMessage, hk, hs]
    | some data =>
      cases hv : data.lookup k with
      | none => simp [getText, resolveMessage, isTruthy, hk, hs, hv]
      | some tstr =>
        by_cases he : tstr = "" <;>
          simp [getText, resolveMessage, isTruthy, hk, hs, hv, he]

/-- C1 amended witness: the getText theorem applied at a concrete loaded
bundle, resolving a translated key through the identity formatter. -/
theorem getText_spec_witness :
    (getText (fun s _ => s) (fun _ => some [("GREETING", "Hallo")])
      { ref := 0, packageName := "p" }
      (some (TextObj.obj "GREETING" "Hello")) []).text = "Hallo" := by
  have h := (getText_spec (fun s _ => s) (fun _ => some [("GREETING", "Hallo")])
    { ref := 0, packageName := "p" } "GREETING" "Hello" []).2.2.2 (by decide)
  rw [h]; rfl

/-- C2 counterexample: locale data for the package is loaded and contains
the resolved key (mapped to the empty string), so the data does not lack the
key, yet getText emits the missing-key warning. -/
theorem getText_warning_counterexample :
    List.lookup "K" ([("K", "")] : LocaleData) = some ""
    ∧ (getText (fun s _ => s) (fun _ => some [("K", "")])
        { ref := 0, packageName := "p" }
        (some (TextObj.obj "K" "D")) []).warnings
      = [missingKeyWarning "K"] :=
  ⟨rfl, rfl⟩

/-- C2 amended: with a non-empty resolved key and loaded locale data,
getText emits exactly one warning — the missing-key message for the resolved
key — if and only if the data maps the key to no value or to an empty
(falsy) value; in that case the returned text is the formatted defaultText
(or key when defaultText is empty); with unloaded data no warning is
emitted.  The embedded getText is a pure function, so no bundle state is
mutated and no error is raised. -/
theorem getText_warning_spec (fmt : String → List FormatParam → String)
    (store : String → Option LocaleData) (b : I18nBundle) (data : LocaleData)
    (k d : String) (params : List FormatParam)
    (hk : k ≠ "") (hs : store b.packageName = some data) :
    ((getText fmt store b (some (TextObj.obj k d)) params).warnings
      = if isTruthy (data.lookup k) then [] else [missingKeyWarning k])
    ∧ (isTruthy (data.lookup k) = false →
        (getText fmt store b (some (TextObj.obj k d)) params).text
          = fmt (if d = "" then k else d) params)
    ∧ (∀ store2 : String → Option LocaleData, store2 b.packageName = none →
        (getText fmt store2 b (some (TextObj.obj k d)) params).warnings = []) := by
  refine ⟨?_, fun hv => ?_, fun store2 h2 => ?_⟩
  · cases ht : isTruthy (data.lookup k) <;>
      simp [getText, hk, hs, ht]
  · simp [getText, hk, hs, hv]
  · simp [getText, hk, h2]

/-- C2 amended witness: the warning theorem applied at a concrete bundle
whose loaded data lacks the requested key. -/
theorem getText_warning_spec_witness :
    (getText (fun s _ => s) (fun _ => some [("GREETING", "Hallo")])
      { ref := 0, packageName := "p" }
      (some (TextObj.obj "MISSING" "Fallback")) []).warnings
      = [missingKeyWarning "MISSING"] := by
  have h := (getText_warning_spec (fun s _ => s)
    (fun _ => some [("GREETING", "Hallo")]) { ref := 0, packageName := "p" }
    [("GREETING", "Hallo")] "MISSING" "Fallback" [] (by decide) rfl).1
  rw [h]; rfl

/-- C9: when the loaded locale data maps the resolved key to the empty
string, getText emits the missing-key warning and returns the formatted
defaultText (or the key when defaultText is empty) instead of the empty
translated value — presence is decided by truthiness of the stored value,
not by key membership. -/
theorem getText_empty_value_spec (fmt : String → List FormatParam → String)
    (store : String → Option LocaleData) (b : I18nBundle) (data : LocaleData)
    (k d : String) (params : List FormatParam)
    (hk : k ≠ "") (hs : store b.packageName = some data)
    (hv : data.lookup k = some "") :
    (getText fmt store b (some (TextObj.obj k d)) params).warnings
      = [missingKeyWarning k]
    ∧ (getText fmt store b (some (TextObj.obj k d)) params).text
      = fmt (if d = "" then k else d) params := by
  constructor <;> simp [getText, isTruthy, hk, hs, hv]

/-- C9 witness: the empty-value theorem applied at a concrete bundle whose
data maps the key to the empty string. -/
theorem getText_empty_value_spec_witness :
    (getText (fun s _ => s) (fun _ => some [("K", "")])
      { ref := 0, packageName := "p" }
      (some (TextObj.obj "K" "Fallback")) []).warnings = [missingKeyWarning "K"]
    ∧ (getText (fun s _ => s) (fun _ => some [("K", "")])
        { ref := 0, packageName := "p" }
        (some (TextObj.obj "K" "Fallback")) []).text = "Fallback" := by
  have h := getText_empty_value_spec (fun s _ => s) (fun _ => some [("K", "")])
    { ref := 0, packageName := "p" } [("K", "")] "K" "Fallback" []
    (by decide) rfl rfl
  exact ⟨h.1, by rw [h.2]; rfl⟩

/-- C3: the first call to getI18nBundleSync for a package constructs a
bundle with that packageName, inserts it into the registry and returns it;
a call finding a cached instance returns exactly that instance and leaves
the state unchanged, so a repeated call returns the object-identical
instance; and no call ever removes or replaces an entry already in the
registry. -/
theorem getI18nBundleSync_spec (s : RegistryState) (p : String) :
    (s.instances.lookup p = none →
      (getI18nBundleSync s p).1.packageName = p
      ∧ (getI18nBundleSync s p).2.instances.lookup p
          = some (getI18nBundleSync s p).1)
    ∧ (∀ b, s.instances.lookup p = some b → getI18nBundleSync s p = (b, s))
    ∧ getI18nBundleSync (getI18nBundleSync s p).2 p
        = ((getI18nBundleSync s p).1, (getI18nBundleSync s p).2)
    ∧ (∀ q b, s.instances.lookup q = some b →
        (getI18nBundleSync s p).2.instances.lookup q = some b) := by
  refine ⟨fun hl => ?_, fun b hb => ?_, ?_, fun q b hq => ?_⟩
  · simp [getI18nBundleSync, hl, List.lookup]
  · simp [getI18nBundleSync, hb]
  · cases hl : s.instances.lookup p with
    | some b => simp [getI18nBundleSync, hl]
    | none => simp [getI18nBundleSync, hl, List.lookup]
  · cases hl : s.instances.lookup p with
    | some c => simp [getI18nBundleSync, hl, hq]
    | none =>
      have hqp : (q == p) = false := by
        rcases h : q == p with _ | _
        · rfl
        · rw [eq_of_beq h, hl] at hq
          exact Option.noConfusion hq
      simp [getI18nBundleSync, hl, List.lookup, hqp, hq]

/-- C3 witness: the first call on an empty registry constructs and caches an
instance for the package, which the second call returns unchanged. -/
theorem getI18nBundleSync_spec_witness :
    ((getI18nBundleSync ⟨[], 0⟩ "pkg").1.packageName = "pkg"
      ∧ (getI18nBundleSync ⟨[], 0⟩ "pkg").2.instances.lookup "pkg"
          = some (getI18nBundleSync ⟨[], 0⟩ "pkg").1)
    ∧ getI18nBundleSync (getI18nBundleSync ⟨[], 0⟩ "pkg").2 "pkg"
        = ((getI18nBundleSync ⟨[], 0⟩ "pkg").1, (getI18nBundleSync ⟨[], 0⟩ "pkg").2) :=
  ⟨(getI18nBundleSync_spec ⟨[], 0⟩ "pkg").1 rfl,
   (getI18nBundleSync_spec ⟨[], 0⟩ "pkg").2.2.1⟩

/-- C4: with a registered custom getter, getI18nBundle delegates to it
exclusively for every package — neither fetchI18nBundle nor the synchronous
cache path runs and the module state is unchanged; with no custom getter
registered, getI18nBundle performs the fetch and then returns the result of
getI18nBundleSync; the custom getter lives in a single global slot where the
last registration wins, and after any registration every call for any
package takes only the custom path. -/
theorem getI18nBundle_spec (s : I18nModuleState) (p : String) :
    (∀ g, s.customGetI18nBundle = some g →
      getI18nBundle s p = (g p, s, [BundleAction.customCall p]))
    ∧ (s.customGetI18nBundle = none →
      getI18nBundle s p
        = ((getI18nBundleSync s.registry p).1,
           { s with registry := (getI18nBundleSync s.registry p).2 },
           [BundleAction.fetch p, BundleAction.syncPath p]))
    ∧ (∀ g1 g2, (registerCustomI18nBundleGetter g2
        (registerCustomI18nBundleGetter g1 s)).customGetI18nBundle = some g2)
    ∧ (∀ g, getI18nBundle (registerCustomI18nBundleGetter g s) p
        = (g p, registerCustomI18nBundleGetter g s, [BundleAction.customCall p])) := by
  refine ⟨fun g hg => ?_, fun hn => ?_, fun g1 g2 => rfl, fun g => rfl⟩
  · simp [getI18nBundle, hg]
  · simp [getI18nBundle, hn]

/-- C4 witness: getI18nBundle applied at a concrete state holding a custom
getter delegates to that getter and leaves the state unchanged. -/
theorem getI18nBundle_spec_witness :
    getI18nBundle ⟨⟨[], 0⟩, some (fun q => ⟨7, q⟩)⟩ "pkg"
      = (⟨7, "pkg"⟩, ⟨⟨[], 0⟩, some (fun q => ⟨7, q⟩)⟩,
         [BundleAction.customCall "pkg"]) :=
  (getI18nBundle_spec ⟨⟨[], 0⟩, some (fun q => ⟨7, q⟩)⟩ "pkg").1
    (fun q => ⟨7, q⟩) rfl

end UI5
